import Mathlib

/-!
# Zoo: `UTileableMeshComponent`

A shallow embedding of `Source/Zoo/Private/Components/TileableMeshComponent.cpp`.

* C++ `float` is modelled by exact rational arithmetic (`ℚ`); rounding is outside the model.
* Object pointers are `Option Nat`: `none` is `nullptr`, `some k` is the object stored at
  index `k` of the object store. Objects are never removed from the store; a destroyed object
  stays in place with `Valid = false` (it is garbage, as in the engine, until collected).
* The engine operations the component calls (`NewObject`, `DestroyComponent`, the setters,
  `IsValid`) are modelled by their effect on the fields the component can observe.
-/

namespace Zoo

/-- Engine enumeration `EAxis::Type`. -/
inductive EAxis where
  | None
  | X
  | Y
  | Z
  deriving DecidableEq, Repr

/-- Engine vector `FVector`, three scalar components. -/
structure FVector where
  X : ℚ
  Y : ℚ
  Z : ℚ
  deriving DecidableEq

/-- Object pointer: `none` is `nullptr`, `some k` is object number `k` of the store. -/
abbrev ObjPtr := Option Nat

/-- Mesh asset `UStaticMesh`, reduced to its identity and `GetBounds().BoxExtent`. -/
structure UStaticMesh where
  AssetId : Nat
  BoxExtent : FVector
  deriving DecidableEq

/-- Owning actor `AActor`, reduced to its identity and `GetRootComponent()`. -/
structure AActor where
  ActorId : Nat
  RootComponent : ObjPtr
  deriving DecidableEq

/-- Scene node (`USceneComponent` / `UStaticMeshComponent`) as seen by the component.
`DestroyCalls` counts the `DestroyComponent` calls the node has received. -/
structure USceneComponent where
  Valid : Bool
  Registered : Bool
  Outer : Option Nat
  Name : String
  StaticMesh : Option UStaticMesh
  AttachParent : ObjPtr
  Movable : Bool
  Visible : Bool
  HiddenInGame : Bool
  RelativeLocation : FVector
  DestroyCalls : Nat
  deriving DecidableEq

/-- The component together with the object store of the scene it lives in. -/
structure State where
  /-- Result of `IsRegistered()`. -/
  Registered : Bool
  /-- Result of `GetOwner()`. -/
  Owner : Option AActor
  SegmentCount : Int
  HeightAxis : EAxis
  SegmentMesh : Option UStaticMesh
  AttachComponent : ObjPtr
  AnchorComponent : ObjPtr
  SegmentComponents : List ObjPtr
  /-- Object store of the scene. -/
  Objects : List USceneComponent

/-- Modelled from the spec: the engine tolerance macro `KINDA_SMALL_NUMBER`, which is not
declared in this repository; the spec gives a small positive tolerance, 1e-4. -/
def KINDA_SMALL_NUMBER : ℚ := 1 / 10000

/-! ## Engine operations -/

/-- Apply `f` to object `k` of the store, when there is one. -/
def updateObject (objs : List USceneComponent) (k : Nat)
    (f : USceneComponent → USceneComponent) : List USceneComponent :=
  match objs[k]? with
  | some n => objs.set k (f n)
  | none => objs

/-- Engine `IsValid(Ptr)`: non-null and not destroyed. -/
def IsValid (objs : List USceneComponent) (p : ObjPtr) : Bool :=
  match p with
  | none => false
  | some k =>
    match objs[k]? with
    | some n => n.Valid
    | none => false

/-- A freshly constructed `UStaticMeshComponent`. -/
def newStaticMeshComponent (outer : Nat) (name : String) : USceneComponent :=
  { Valid := true, Registered := false, Outer := some outer, Name := name,
    StaticMesh := none, AttachParent := none, Movable := false, Visible := true,
    HiddenInGame := false, RelativeLocation := ⟨0, 0, 0⟩, DestroyCalls := 0 }

/-- Engine `NewObject<UStaticMeshComponent>(Outer, Class, Name)`: a new object, with an
identity no pointer held before the call has, is added to the store; the result is the store
and the new object's number. -/
def NewObject (objs : List USceneComponent) (outer : AActor) (name : String) :
    List USceneComponent × Nat :=
  (objs ++ [newStaticMeshComponent outer.ActorId name], objs.length)

/-- Effect of `DestroyComponent()` on the node itself. -/
def destroyNode (n : USceneComponent) : USceneComponent :=
  { n with Valid := false, Registered := false, DestroyCalls := n.DestroyCalls + 1 }

/-- Engine `Ptr->DestroyComponent()`. -/
def DestroyComponent (objs : List USceneComponent) (k : Nat) : List USceneComponent :=
  updateObject objs k destroyNode

/-- Engine `Ptr->SetStaticMesh(Mesh)`. -/
def SetStaticMesh (objs : List USceneComponent) (k : Nat) (m : Option UStaticMesh) :
    List USceneComponent :=
  updateObject objs k (fun n => { n with StaticMesh := m })

/-- Engine `Ptr->SetupAttachment(Parent)`. -/
def SetupAttachment (objs : List USceneComponent) (k : Nat) (parent : ObjPtr) :
    List USceneComponent :=
  updateObject objs k (fun n => { n with AttachParent := parent })

/-- Engine `Ptr->SetMobility(EComponentMobility::Movable)`. -/
def SetMobilityMovable (objs : List USceneComponent) (k : Nat) : List USceneComponent :=
  updateObject objs k (fun n => { n with Movable := true })

/-- Engine `Ptr->SetVisibility(b)`. -/
def SetVisibility (objs : List USceneComponent) (k : Nat) (b : Bool) : List USceneComponent :=
  updateObject objs k (fun n => { n with Visible := b })

/-- Engine `Ptr->SetHiddenInGame(b)`. -/
def SetHiddenInGame (objs : List USceneComponent) (k : Nat) (b : Bool) :
    List USceneComponent :=
  updateObject objs k (fun n => { n with HiddenInGame := b })

/-- Engine `Ptr->SetRelativeLocation(V)`. -/
def SetRelativeLocation (objs : List USceneComponent) (k : Nat) (v : FVector) :
    List USceneComponent :=
  updateObject objs k (fun n => { n with RelativeLocation := v })

/-- Engine `Ptr->RegisterComponent()`. -/
def RegisterComponent (objs : List USceneComponent) (k : Nat) : List USceneComponent :=
  updateObject objs k (fun n => { n with Registered := true })

/-! ## The component -/

/-- `UTileableMeshComponent::GetAxisExtent`. -/
def GetAxisExtent (BoxExtent : FVector) (Axis : EAxis) : ℚ :=
  match Axis with
  | EAxis.X => BoxExtent.X
  | EAxis.Y => BoxExtent.Y
  | EAxis.Z => BoxExtent.Z
  | _ => BoxExtent.Z

/-- `UTileableMeshComponent::GetAxisOffset`. -/
def GetAxisOffset (BoxExtent : FVector) (Axis : EAxis) : ℚ :=
  match Axis with
  | EAxis.X => -BoxExtent.X
  | EAxis.Y => -BoxExtent.Y
  | EAxis.Z => -BoxExtent.Z
  | _ => -BoxExtent.Z

/-- `UTileableMeshComponent::MakeLocationForAxis`. -/
def MakeLocationForAxis (Axis : EAxis) (Value : ℚ) : FVector :=
  match Axis with
  | EAxis.X => ⟨Value, 0, 0⟩
  | EAxis.Y => ⟨0, Value, 0⟩
  | EAxis.Z => ⟨0, 0, Value⟩
  | _ => ⟨0, 0, Value⟩

/-- Body of the range-for of `ClearSegments`, for one `Segment`. -/
def clearStep (objs : List USceneComponent) (Segment : ObjPtr) : List USceneComponent :=
  if IsValid objs Segment then
    match Segment with
    | some k => DestroyComponent objs k
    | none => objs
  else objs

/-- `UTileableMeshComponent::ClearSegments`. -/
def ClearSegments (s : State) : State :=
  { s with
    Objects := s.SegmentComponents.foldl clearStep s.Objects
    SegmentComponents := [] }

/-- `UTileableMeshComponent::GetOrCreateAttachComponent`. -/
def GetOrCreateAttachComponent (s : State) : ObjPtr :=
  match s.Owner with
  | none => none
  | some Owner =>
    if s.AttachComponent.isSome && IsValid s.Objects s.AttachComponent then
      s.AttachComponent
    else
      Owner.RootComponent

/-- Body of the segment loop of `RebuildMesh`, iteration `i`. -/
def segmentStep (Owner : AActor) (AttachTo : Nat) (BaseOffset SegmentLength : ℚ)
    (s : State) (i : Nat) : State :=
  let (objs, NewSegment) := NewObject s.Objects Owner ("Segment_" ++ toString i)
  let objs := SetStaticMesh objs NewSegment s.SegmentMesh
  let objs := SetupAttachment objs NewSegment (some AttachTo)
  let objs := SetMobilityMovable objs NewSegment
  let objs := SetVisibility objs NewSegment true
  let objs := SetHiddenInGame objs NewSegment false
  let LocationValue : ℚ := BaseOffset + ((i : ℚ) * SegmentLength)
  let Location := MakeLocationForAxis s.HeightAxis LocationValue
  let objs := SetRelativeLocation objs NewSegment Location
  let objs := RegisterComponent objs NewSegment
  { s with Objects := objs, SegmentComponents := s.SegmentComponents ++ [some NewSegment] }

/-- `UTileableMeshComponent::RebuildMesh`. The loop `for (int32 i = 0; i < SegmentCount; ++i)`
runs over `List.range SegmentCount.toNat` (no iteration when `SegmentCount ≤ 0`);
`SegmentComponents.Reserve` only reserves capacity and is not modelled. -/
def RebuildMesh (s : State) : State :=
  if !s.Registered then s
  else
    match s.Owner with
    | none => s
    | some Owner =>
      match GetOrCreateAttachComponent s with
      | none => ClearSegments s
      | some AttachTo =>
        let s := ClearSegments s
        match s.SegmentMesh with
        | none => s
        | some Mesh =>
          let BoxExtent := Mesh.BoxExtent
          let SegmentLength : ℚ := GetAxisExtent BoxExtent s.HeightAxis * 2
          let BaseOffset : ℚ := GetAxisOffset BoxExtent s.HeightAxis
          if SegmentLength ≤ KINDA_SMALL_NUMBER then s
          else
            let s := (List.range s.SegmentCount.toNat).foldl
              (segmentStep Owner AttachTo BaseOffset SegmentLength) s
            let FinalExtent : ℚ := (s.SegmentCount : ℚ) * SegmentLength
            match s.AnchorComponent with
            | some Anchor =>
              let AnchorLocation := MakeLocationForAxis s.HeightAxis FinalExtent
              { s with Objects := SetRelativeLocation s.Objects Anchor AnchorLocation }
            | none => s

/-! ## Observers and proof-side descriptions -/

/-- Object a pointer refers to. -/
def deref (objs : List USceneComponent) (p : ObjPtr) : Option USceneComponent :=
  match p with
  | some k => objs[k]?
  | none => none

/-- Node held at index `i` of the segment collection. -/
def segmentAt (s : State) (i : Nat) : Option USceneComponent :=
  match s.SegmentComponents[i]? with
  | some p => deref s.Objects p
  | none => none

/-- Local position of the segment at index `i` of the collection. -/
def segmentLocation (s : State) (i : Nat) : Option FVector :=
  (segmentAt s i).map USceneComponent.RelativeLocation

/-- Local position of the node `AnchorComponent` points to. -/
def anchorLocation (s : State) : Option FVector :=
  (deref s.Objects s.AnchorComponent).map USceneComponent.RelativeLocation

/-- Local position of object `k` of a store. -/
def locationOf (objs : List USceneComponent) (k : Nat) : Option FVector :=
  (objs[k]?).map USceneComponent.RelativeLocation

/-- The node that iteration `i` of the segment loop leaves in the store. -/
def segmentNode (Owner : AActor) (AttachTo : Nat) (mesh : Option UStaticMesh) (axis : EAxis)
    (BaseOffset SegmentLength : ℚ) (i : Nat) : USceneComponent :=
  { Valid := true, Registered := true, Outer := some Owner.ActorId,
    Name := "Segment_" ++ toString i, StaticMesh := mesh, AttachParent := some AttachTo,
    Movable := true, Visible := true, HiddenInGame := false,
    RelativeLocation := MakeLocationForAxis axis (BaseOffset + (i : ℚ) * SegmentLength),
    DestroyCalls := 0 }

/-- Store after the loop of `ClearSegments`. -/
def clearedObjects (s : State) : List USceneComponent :=
  s.SegmentComponents.foldl clearStep s.Objects

/-- Store after the segment loop of a successful `RebuildMesh`. -/
def builtObjects (s : State) (Owner : AActor) (AttachTo : Nat) (Mesh : UStaticMesh) :
    List USceneComponent :=
  clearedObjects s ++ (List.range s.SegmentCount.toNat).map
    (segmentNode Owner AttachTo (some Mesh) s.HeightAxis
      (GetAxisOffset Mesh.BoxExtent s.HeightAxis) (GetAxisExtent Mesh.BoxExtent s.HeightAxis * 2))

/-- Location a successful `RebuildMesh` gives the anchor. -/
def finalLocation (s : State) (Mesh : UStaticMesh) : FVector :=
  MakeLocationForAxis s.HeightAxis
    ((s.SegmentCount : ℚ) * (GetAxisExtent Mesh.BoxExtent s.HeightAxis * 2))

/-! ## Example states -/

/-- The spec scenario: axis Z, half-extents (1,1,2), three segments, no attach target (the
owner's root node is object 0), anchor object 1, an empty collection. -/
def scenario : State :=
  { Registered := true
    Owner := some ⟨7, some 0⟩
    SegmentCount := 3
    HeightAxis := EAxis.Z
    SegmentMesh := some ⟨1, ⟨1, 1, 2⟩⟩
    AttachComponent := none
    AnchorComponent := some 1
    SegmentComponents := []
    Objects := [newStaticMeshComponent 7 "Root", newStaticMeshComponent 7 "Anchor"] }

/-- A registered, owned component without asset that still holds two segments: object 1,
live, and object 2, already destroyed by the host. Object 0 is the owner's root node. -/
def noAsset : State :=
  { Registered := true
    Owner := some ⟨7, some 0⟩
    SegmentCount := 3
    HeightAxis := EAxis.Z
    SegmentMesh := none
    AttachComponent := none
    AnchorComponent := none
    SegmentComponents := [some 1, some 2]
    Objects := [newStaticMeshComponent 7 "Root", newStaticMeshComponent 7 "Segment_0",
      destroyNode (newStaticMeshComponent 7 "Segment_1")] }

/-- An unregistered component that still holds one live segment, object 1. -/
def unregistered : State :=
  { Registered := false
    Owner := some ⟨7, some 0⟩
    SegmentCount := 1
    HeightAxis := EAxis.Z
    SegmentMesh := some ⟨1, ⟨1, 1, 2⟩⟩
    AttachComponent := none
    AnchorComponent := none
    SegmentComponents := [some 1]
    Objects := [newStaticMeshComponent 7 "Root", newStaticMeshComponent 7 "Segment_0"] }

/-- A component without owner whose `AttachComponent` is the live node 0. -/
def ownerless : State :=
  { Registered := true
    Owner := none
    SegmentCount := 1
    HeightAxis := EAxis.Z
    SegmentMesh := some ⟨1, ⟨1, 1, 2⟩⟩
    AttachComponent := some 0
    AnchorComponent := none
    SegmentComponents := []
    Objects := [newStaticMeshComponent 7 "Target"] }

/-- A component whose owner has no root node and whose `AttachComponent` is unset. -/
def rootless : State :=
  { Registered := true
    Owner := some ⟨7, none⟩
    SegmentCount := 1
    HeightAxis := EAxis.Z
    SegmentMesh := some ⟨1, ⟨1, 1, 2⟩⟩
    AttachComponent := none
    AnchorComponent := none
    SegmentComponents := []
    Objects := [] }

/-- The spec scenario with `AttachComponent` set to node 2, distinct from the owner's root
node 0 and from the anchor 1. -/
def withAttach : State :=
  { scenario with
    AttachComponent := some 2
    Objects := [newStaticMeshComponent 7 "Root", newStaticMeshComponent 7 "Anchor",
      newStaticMeshComponent 7 "Target"] }

/-- The spec scenario with `AttachComponent` set to the owner's root node itself. -/
def attachIsRoot : State :=
  { scenario with AttachComponent := some 0 }

/-- The state `withAttach` with the owner's root node as anchor. -/
def anchorIsRoot : State :=
  { withAttach with AnchorComponent := some 0 }

/-- The state `withAttach` with the owner's root node held in the collection. -/
def rootInCollection : State :=
  { withAttach with SegmentComponents := [some 0] }

/-- The spec scenario with an asset of half-extent 0 along Z. -/
def flatAsset : State :=
  { scenario with SegmentMesh := some ⟨1, ⟨1, 1, 0⟩⟩ }

/-- A state with its `HeightAxis` replaced. -/
def withAxis (s : State) (a : EAxis) : State :=
  { s with HeightAxis := a }

theorem updateObject_append_last (objs : List USceneComponent) (n : USceneComponent)
    (f : USceneComponent → USceneComponent) :
    updateObject (objs ++ [n]) objs.length f = objs ++ [f n] := by
  simp [updateObject]

theorem length_updateObject (objs : List USceneComponent) (k : Nat)
    (f : USceneComponent → USceneComponent) :
    (updateObject objs k f).length = objs.length := by
  unfold updateObject
  split <;> simp

theorem getElem?_updateObject (objs : List USceneComponent) (k j : Nat)
    (f : USceneComponent → USceneComponent) :
    (updateObject objs k f)[j]? = if k = j then (objs[j]?).map f else objs[j]? := by
  unfold updateObject
  split
  · rename_i n hn
    by_cases h : k = j
    · subst h
      simp [hn, List.getElem?_set]
      by_contra h2
      have := List.getElem?_eq_none_iff.mpr (Nat.le_of_not_lt h2)
      simp [hn] at this
    · simp [h, List.getElem?_set_ne h]
  · rename_i hn
    by_cases h : k = j
    · subst h; simp [hn]
    · simp [h]

theorem segmentStep_eq (Owner : AActor) (AttachTo : Nat) (B L : ℚ) (s : State) (i : Nat) :
    segmentStep Owner AttachTo B L s i =
      { s with
        Objects := s.Objects ++ [segmentNode Owner AttachTo s.SegmentMesh s.HeightAxis B L i]
        SegmentComponents := s.SegmentComponents ++ [some s.Objects.length] } := by
  simp [segmentStep, NewObject, SetStaticMesh, SetupAttachment, SetMobilityMovable,
    SetVisibility, SetHiddenInGame, SetRelativeLocation, RegisterComponent,
    updateObject_append_last, segmentNode, newStaticMeshComponent]

theorem segmentLoop_eq (Owner : AActor) (AttachTo : Nat) (B L : ℚ) (s : State) (n : Nat) :
    (List.range n).foldl (segmentStep Owner AttachTo B L) s =
      { s with
        Objects := s.Objects ++
          (List.range n).map (segmentNode Owner AttachTo s.SegmentMesh s.HeightAxis B L)
        SegmentComponents := s.SegmentComponents ++
          (List.range n).map (fun i => some (s.Objects.length + i)) } := by
  induction n with
  | zero => simp
  | succ n ih =>
    rw [List.range_succ, List.foldl_append, ih]
    simp [segmentStep_eq]


theorem length_clearStep (objs : List USceneComponent) (p : ObjPtr) :
    (clearStep objs p).length = objs.length := by
  unfold clearStep
  split
  · split
    · exact length_updateObject _ _ _
    · rfl
  · rfl

theorem getElem?_clearStep (objs : List USceneComponent) (p : ObjPtr) (j : Nat) :
    (clearStep objs p)[j]? =
      (objs[j]?).map (fun n => if p = some j ∧ n.Valid = true then destroyNode n else n) := by
  unfold clearStep
  cases p with
  | none => simp [IsValid]
  | some k =>
    by_cases hkj : k = j
    · subst hkj
      cases hn : objs[k]? with
      | none => simp [IsValid, hn]
      | some n =>
        cases hv : n.Valid <;>
          simp [IsValid, hn, hv, DestroyComponent, getElem?_updateObject]
    · have hne : ¬ j = k := fun h => hkj h.symm
      cases hj : objs[j]? with
      | none =>
        split
        · simp [DestroyComponent, getElem?_updateObject, hkj, hj]
        · simp [hj]
      | some n =>
        split
        · simp [DestroyComponent, getElem?_updateObject, hkj, hj]
        · simp [hj, hkj]

theorem length_clearLoop (segs : List ObjPtr) (objs : List USceneComponent) :
    (segs.foldl clearStep objs).length = objs.length := by
  induction segs generalizing objs with
  | nil => rfl
  | cons p rest ih => simp [List.foldl_cons, ih, length_clearStep]

theorem getElem?_clearLoop (segs : List ObjPtr) (objs : List USceneComponent) (j : Nat) :
    (segs.foldl clearStep objs)[j]? =
      (objs[j]?).map (fun n => if some j ∈ segs ∧ n.Valid = true then destroyNode n else n) := by
  induction segs generalizing objs with
  | nil => simp
  | cons p rest ih =>
    rw [List.foldl_cons, ih, getElem?_clearStep]
    cases hj : objs[j]? with
    | none => simp
    | some n =>
      by_cases hp : p = some j
      · cases hv : n.Valid <;> simp [hp, hv, destroyNode]
      · have hp2 : ¬ some j = p := fun h => hp h.symm
        simp [hp, hp2]


theorem RebuildMesh_of_success (s : State) (Owner : AActor) (AttachTo : Nat)
    (Mesh : UStaticMesh) (hreg : s.Registered = true) (hown : s.Owner = some Owner)
    (hatt : GetOrCreateAttachComponent s = some AttachTo) (hmesh : s.SegmentMesh = some Mesh)
    (hlen : KINDA_SMALL_NUMBER < GetAxisExtent Mesh.BoxExtent s.HeightAxis * 2) :
    RebuildMesh s =
      { s with
        SegmentComponents :=
          (List.range s.SegmentCount.toNat).map (fun i => some (s.Objects.length + i))
        Objects :=
          match s.AnchorComponent with
          | some Anchor =>
            SetRelativeLocation (builtObjects s Owner AttachTo Mesh) Anchor (finalLocation s Mesh)
          | none => builtObjects s Owner AttachTo Mesh } := by
  have hnot : ¬ GetAxisExtent Mesh.BoxExtent s.HeightAxis * 2 ≤ KINDA_SMALL_NUMBER :=
    not_le.mpr hlen
  simp only [RebuildMesh, hreg, hown, hatt, ClearSegments, hmesh, segmentLoop_eq,
    length_clearLoop, builtObjects, clearedObjects, finalLocation]
  simp only [Bool.not_true, Bool.false_eq_true, if_false, hnot, List.nil_append]
  cases s.AnchorComponent <;> rfl

theorem RebuildMesh_of_failure (s : State) (Owner : AActor) (hreg : s.Registered = true)
    (hown : s.Owner = some Owner)
    (hfail : GetOrCreateAttachComponent s = none ∨ s.SegmentMesh = none ∨
      ∃ Mesh, s.SegmentMesh = some Mesh ∧
        GetAxisExtent Mesh.BoxExtent s.HeightAxis * 2 ≤ KINDA_SMALL_NUMBER) :
    RebuildMesh s = ClearSegments s := by
  cases hatt : GetOrCreateAttachComponent s with
  | none => simp [RebuildMesh, hreg, hown, hatt]
  | some AttachTo =>
    rcases hfail with h | h | ⟨Mesh, hm, hd⟩
    · simp [hatt] at h
    · simp [RebuildMesh, hreg, hown, hatt, ClearSegments, h]
    · simp [RebuildMesh, hreg, hown, hatt, ClearSegments, hm, hd]

theorem length_clearedObjects (s : State) : (clearedObjects s).length = s.Objects.length :=
  length_clearLoop _ _

theorem getElem?_builtObjects_old (s : State) (Owner : AActor) (AttachTo : Nat)
    (Mesh : UStaticMesh) (k : Nat) (hk : k < s.Objects.length) :
    (builtObjects s Owner AttachTo Mesh)[k]? = (clearedObjects s)[k]? := by
  unfold builtObjects
  exact List.getElem?_append_left (by rw [length_clearedObjects]; exact hk)

theorem getElem?_builtObjects_new (s : State) (Owner : AActor) (AttachTo : Nat)
    (Mesh : UStaticMesh) (i : Nat) (hi : i < s.SegmentCount.toNat) :
    (builtObjects s Owner AttachTo Mesh)[s.Objects.length + i]? =
      some (segmentNode Owner AttachTo (some Mesh) s.HeightAxis
        (GetAxisOffset Mesh.BoxExtent s.HeightAxis)
        (GetAxisExtent Mesh.BoxExtent s.HeightAxis * 2) i) := by
  unfold builtObjects
  rw [List.getElem?_append_right (by rw [length_clearedObjects]; omega)]
  simp [length_clearedObjects, hi]

/-- The collection after a successful rebuild: the new objects, in index order. -/
theorem collection_of_success (s : State) (Owner : AActor) (AttachTo : Nat)
    (Mesh : UStaticMesh) (hreg : s.Registered = true) (hown : s.Owner = some Owner)
    (hatt : GetOrCreateAttachComponent s = some AttachTo) (hmesh : s.SegmentMesh = some Mesh)
    (hlen : KINDA_SMALL_NUMBER < GetAxisExtent Mesh.BoxExtent s.HeightAxis * 2) :
    (RebuildMesh s).SegmentComponents =
      (List.range s.SegmentCount.toNat).map (fun i => some (s.Objects.length + i)) := by
  rw [RebuildMesh_of_success s Owner AttachTo Mesh hreg hown hatt hmesh hlen]

/-- The store after a successful rebuild, object by object: the anchor gets its new
location, everything else is as the segment loop left it. -/
theorem getElem?_objects_of_success (s : State) (Owner : AActor) (AttachTo : Nat)
    (Mesh : UStaticMesh) (hreg : s.Registered = true) (hown : s.Owner = some Owner)
    (hatt : GetOrCreateAttachComponent s = some AttachTo) (hmesh : s.SegmentMesh = some Mesh)
    (hlen : KINDA_SMALL_NUMBER < GetAxisExtent Mesh.BoxExtent s.HeightAxis * 2) (k : Nat) :
    (RebuildMesh s).Objects[k]? =
      if s.AnchorComponent = some k then
        ((builtObjects s Owner AttachTo Mesh)[k]?).map
          (fun n => { n with RelativeLocation := finalLocation s Mesh })
      else (builtObjects s Owner AttachTo Mesh)[k]? := by
  rw [RebuildMesh_of_success s Owner AttachTo Mesh hreg hown hatt hmesh hlen]
  cases ha : s.AnchorComponent with
  | none => simp
  | some a =>
    simp only [SetRelativeLocation, getElem?_updateObject, Option.some.injEq]

/-- C1: for a registered component with an owner, a resolved attach target and a segment
asset whose segment length (twice the half-extent along `HeightAxis`) exceeds the tolerance,
for every `SegmentCount ≥ 1` and every prior content of the collection, after `RebuildMesh`
the collection holds exactly `SegmentCount` segments, each of them a live node. -/
theorem rebuild_collection_length (s : State) (Owner : AActor) (AttachTo : Nat)
    (Mesh : UStaticMesh) (hreg : s.Registered = true) (hown : s.Owner = some Owner)
    (hatt : GetOrCreateAttachComponent s = some AttachTo) (hmesh : s.SegmentMesh = some Mesh)
    (hlen : KINDA_SMALL_NUMBER < GetAxisExtent Mesh.BoxExtent s.HeightAxis * 2)
    (hcount : 1 ≤ s.SegmentCount) :
    ((RebuildMesh s).SegmentComponents.length : ℤ) = s.SegmentCount ∧
      ∀ p ∈ (RebuildMesh s).SegmentComponents, IsValid (RebuildMesh s).Objects p = true := by
  constructor
  · rw [collection_of_success s Owner AttachTo Mesh hreg hown hatt hmesh hlen]
    simp only [List.length_map, List.length_range]
    omega
  · intro p hp
    rw [collection_of_success s Owner AttachTo Mesh hreg hown hatt hmesh hlen] at hp
    obtain ⟨i, hi, rfl⟩ := List.mem_map.mp hp
    have hi2 : i < s.SegmentCount.toNat := List.mem_range.mp hi
    unfold IsValid
    simp only
    rw [getElem?_objects_of_success s Owner AttachTo Mesh hreg hown hatt hmesh hlen,
      getElem?_builtObjects_new s Owner AttachTo Mesh i hi2]
    by_cases ha : s.AnchorComponent = some (s.Objects.length + i) <;> simp [ha, segmentNode]

theorem rebuild_collection_length_witness :
    ((RebuildMesh scenario).SegmentComponents.length : ℤ) = 3 ∧
      ∀ p ∈ (RebuildMesh scenario).SegmentComponents,
        IsValid (RebuildMesh scenario).Objects p = true :=
  rebuild_collection_length scenario ⟨7, some 0⟩ 0 ⟨1, ⟨1, 1, 2⟩⟩ rfl rfl rfl rfl
    (by norm_num [KINDA_SMALL_NUMBER, GetAxisExtent, scenario]) (by decide)

/-- Entry `i` of the collection after a successful rebuild. -/
theorem getElem?_collection_of_success (s : State) (Owner : AActor) (AttachTo : Nat)
    (Mesh : UStaticMesh) (hreg : s.Registered = true) (hown : s.Owner = some Owner)
    (hatt : GetOrCreateAttachComponent s = some AttachTo) (hmesh : s.SegmentMesh = some Mesh)
    (hlen : KINDA_SMALL_NUMBER < GetAxisExtent Mesh.BoxExtent s.HeightAxis * 2) (i : Nat) :
    (RebuildMesh s).SegmentComponents[i]? =
      if i < s.SegmentCount.toNat then some (some (s.Objects.length + i)) else none := by
  rw [collection_of_success s Owner AttachTo Mesh hreg hown hatt hmesh hlen]
  by_cases hi : i < s.SegmentCount.toNat
  · simp [hi, List.getElem?_range hi]
  · simp [hi, Nat.le_of_not_lt hi]

theorem destroyNode_location (n : USceneComponent) :
    (destroyNode n).RelativeLocation = n.RelativeLocation := rfl

/-- Clearing the collection moves no node. -/
theorem locationOf_clearedObjects (s : State) (k : Nat) :
    locationOf (clearedObjects s) k = locationOf s.Objects k := by
  unfold locationOf clearedObjects
  rw [getElem?_clearLoop]
  cases s.Objects[k]? with
  | none => rfl
  | some n =>
    simp only [Option.map_some']
    split <;> rfl

/-- C4: for a registered component with an owner, every `SegmentCount` and every prior
content of the collection: if the attach target is unresolved, or the asset is unset, or the
segment length is at most the tolerance, then after `RebuildMesh` the collection is empty,
every previously held valid segment has been destroyed, and no object has been created. -/
theorem rebuild_failure_clears (s : State) (Owner : AActor) (hreg : s.Registered = true)
    (hown : s.Owner = some Owner)
    (hfail : GetOrCreateAttachComponent s = none ∨ s.SegmentMesh = none ∨
      ∃ Mesh, s.SegmentMesh = some Mesh ∧
        GetAxisExtent Mesh.BoxExtent s.HeightAxis * 2 ≤ KINDA_SMALL_NUMBER) :
    (RebuildMesh s).SegmentComponents = [] ∧
      (∀ k n, some k ∈ s.SegmentComponents → s.Objects[k]? = some n → n.Valid = true →
        (RebuildMesh s).Objects[k]? = some (destroyNode n)) ∧
      (RebuildMesh s).Objects.length = s.Objects.length := by
  rw [RebuildMesh_of_failure s Owner hreg hown hfail]
  refine ⟨rfl, ?_, ?_⟩
  · intro k n hk hn hv
    show (s.SegmentComponents.foldl clearStep s.Objects)[k]? = _
    rw [getElem?_clearLoop, hn]
    simp [hk, hv]
  · exact length_clearLoop _ _

theorem rebuild_failure_clears_witness :
    (RebuildMesh noAsset).SegmentComponents = [] ∧
      IsValid noAsset.Objects (some 1) = true ∧
      IsValid (RebuildMesh noAsset).Objects (some 1) = false ∧
      (RebuildMesh noAsset).Objects.length = 3 := by
  obtain ⟨h1, h2, h3⟩ :=
    rebuild_failure_clears noAsset ⟨7, some 0⟩ rfl rfl (Or.inr (Or.inl rfl))
  refine ⟨h1, rfl, ?_, h3⟩
  have := h2 1 (newStaticMeshComponent 7 "Segment_0") (by simp [noAsset]) rfl rfl
  simp [IsValid, this, destroyNode]

/-- C5 as stated fails: on an unregistered component the rebuild fails and the collection
keeps its segment. -/
theorem unregistered_rebuild_keeps_collection :
    unregistered.Registered = false ∧
      (RebuildMesh unregistered).SegmentComponents.length = 1 ∧
      IsValid (RebuildMesh unregistered).Objects (some 1) = true :=
  ⟨rfl, rfl, rfl⟩

/-- C5, amended: a `RebuildMesh` call that fails after the registration and owner checks
(attach target unresolved, asset unset, or degenerate extent) leaves the collection with
length 0 and every segment it held destroyed; a call on a component that is not registered
or has no owner returns before clearing and leaves the collection as it was. -/
theorem rebuild_failure_length (s : State) :
    (∀ Owner, s.Registered = true → s.Owner = some Owner →
      (GetOrCreateAttachComponent s = none ∨ s.SegmentMesh = none ∨
        ∃ Mesh, s.SegmentMesh = some Mesh ∧
          GetAxisExtent Mesh.BoxExtent s.HeightAxis * 2 ≤ KINDA_SMALL_NUMBER) →
      (RebuildMesh s).SegmentComponents.length = 0 ∧
        ∀ p ∈ s.SegmentComponents, IsValid (RebuildMesh s).Objects p = false) ∧
    (s.Registered = false ∨ s.Owner = none →
      (RebuildMesh s).SegmentComponents = s.SegmentComponents) := by
  constructor
  · intro Owner hreg hown hfail
    rw [RebuildMesh_of_failure s Owner hreg hown hfail]
    refine ⟨rfl, ?_⟩
    intro p hp
    cases p with
    | none => rfl
    | some k =>
      show IsValid (s.SegmentComponents.foldl clearStep s.Objects) (some k) = false
      unfold IsValid
      simp only
      rw [getElem?_clearLoop]
      cases hn : s.Objects[k]? with
      | none => rfl
      | some n => cases hv : n.Valid <;> simp [hp, hv, destroyNode]
  · rintro (h | h)
    · simp [RebuildMesh, h]
    · unfold RebuildMesh
      split
      · rfl
      · simp [h]

theorem rebuild_failure_length_witness :
    ((RebuildMesh noAsset).SegmentComponents.length = 0 ∧
        ∀ p ∈ noAsset.SegmentComponents, IsValid (RebuildMesh noAsset).Objects p = false) ∧
      (RebuildMesh unregistered).SegmentComponents = [some 1] :=
  ⟨(rebuild_failure_length noAsset).1 ⟨7, some 0⟩ rfl rfl (Or.inr (Or.inl rfl)),
    (rebuild_failure_length unregistered).2 (Or.inl rfl)⟩

/-- C6: when the component is not registered or has no owner, `RebuildMesh` is a no-op: the
collection, every segment in it, the anchor's position and the rest of the scene are exactly
as before the call. -/
theorem rebuild_noop (s : State) (h : s.Registered = false ∨ s.Owner = none) :
    RebuildMesh s = s := by
  rcases h with h | h
  · simp [RebuildMesh, h]
  · unfold RebuildMesh
    split
    · rfl
    · simp [h]

theorem rebuild_noop_witness : RebuildMesh unregistered = unregistered :=
  rebuild_noop unregistered (Or.inl rfl)

/-- The three ways a `RebuildMesh` call can go. -/
theorem rebuild_cases (s : State) :
    (s.Registered = false ∨ s.Owner = none) ∨
    (∃ Owner, s.Registered = true ∧ s.Owner = some Owner ∧
      (GetOrCreateAttachComponent s = none ∨ s.SegmentMesh = none ∨
        ∃ Mesh, s.SegmentMesh = some Mesh ∧
          GetAxisExtent Mesh.BoxExtent s.HeightAxis * 2 ≤ KINDA_SMALL_NUMBER)) ∨
    (∃ Owner AttachTo Mesh, s.Registered = true ∧ s.Owner = some Owner ∧
      GetOrCreateAttachComponent s = some AttachTo ∧ s.SegmentMesh = some Mesh ∧
      KINDA_SMALL_NUMBER < GetAxisExtent Mesh.BoxExtent s.HeightAxis * 2) := by
  cases hreg : s.Registered with
  | false => exact Or.inl (Or.inl rfl)
  | true =>
    cases hown : s.Owner with
    | none => exact Or.inl (Or.inr rfl)
    | some Owner =>
      right
      cases hatt : GetOrCreateAttachComponent s with
      | none => exact Or.inl ⟨Owner, rfl, rfl, Or.inl rfl⟩
      | some AttachTo =>
        cases hmesh : s.SegmentMesh with
        | none => exact Or.inl ⟨Owner, rfl, rfl, Or.inr (Or.inl rfl)⟩
        | some Mesh =>
          rcases le_or_lt (GetAxisExtent Mesh.BoxExtent s.HeightAxis * 2) KINDA_SMALL_NUMBER
            with h | h
          · exact Or.inl ⟨Owner, rfl, rfl, Or.inr (Or.inr ⟨Mesh, rfl, h⟩)⟩
          · exact Or.inr ⟨Owner, AttachTo, Mesh, rfl, rfl, rfl, rfl, h⟩

theorem IsValid_some (objs : List USceneComponent) (k : Nat) :
    IsValid objs (some k) = ((objs[k]?).map USceneComponent.Valid).getD false := by
  unfold IsValid
  simp only
  cases h : objs[k]? <;> rfl

/-- The anchor update of a successful rebuild changes no validity flag. -/
theorem valid_objects_of_success (s : State) (Owner : AActor) (AttachTo : Nat)
    (Mesh : UStaticMesh) (hreg : s.Registered = true) (hown : s.Owner = some Owner)
    (hatt : GetOrCreateAttachComponent s = some AttachTo) (hmesh : s.SegmentMesh = some Mesh)
    (hlen : KINDA_SMALL_NUMBER < GetAxisExtent Mesh.BoxExtent s.HeightAxis * 2) (k : Nat) :
    ((RebuildMesh s).Objects[k]?).map USceneComponent.Valid =
      ((builtObjects s Owner AttachTo Mesh)[k]?).map USceneComponent.Valid := by
  rw [getElem?_objects_of_success s Owner AttachTo Mesh hreg hown hatt hmesh hlen]
  by_cases ha : s.AnchorComponent = some k
  · rw [if_pos ha]
    cases (builtObjects s Owner AttachTo Mesh)[k]? <;> rfl
  · rw [if_neg ha]

/-- C8 as stated fails: without owner the result is unresolved although `AttachComponent` is
set and valid, and with an owner that has no root node the result is unresolved although
there is an owner. -/
theorem attach_resolution_unresolved :
    (IsValid ownerless.Objects ownerless.AttachComponent = true ∧
        GetOrCreateAttachComponent ownerless = none) ∧
      (rootless.Owner = some ⟨7, none⟩ ∧ GetOrCreateAttachComponent rootless = none) :=
  ⟨⟨rfl, rfl⟩, ⟨rfl, rfl⟩⟩

/-- C8, amended: without owner `GetOrCreateAttachComponent` returns unresolved, whatever
`AttachComponent` is; with an owner it returns `AttachComponent` when that is set and
valid, and otherwise the owner's root node. Hence it returns unresolved exactly when there
is no owner, or `AttachComponent` is unset or invalid and the owner has no root node. -/
theorem attach_resolution (s : State) :
    (s.Owner = none → GetOrCreateAttachComponent s = none) ∧
    (∀ Owner, s.Owner = some Owner →
      (IsValid s.Objects s.AttachComponent = true →
        GetOrCreateAttachComponent s = s.AttachComponent) ∧
      (IsValid s.Objects s.AttachComponent = false →
        GetOrCreateAttachComponent s = Owner.RootComponent)) ∧
    (GetOrCreateAttachComponent s = none ↔
      s.Owner = none ∨ ∃ Owner, s.Owner = some Owner ∧
        IsValid s.Objects s.AttachComponent = false ∧ Owner.RootComponent = none) := by
  have hnone : s.Owner = none → GetOrCreateAttachComponent s = none := by
    intro h
    simp [GetOrCreateAttachComponent, h]
  have hsome : ∀ Owner, s.Owner = some Owner →
      (IsValid s.Objects s.AttachComponent = true →
        GetOrCreateAttachComponent s = s.AttachComponent) ∧
      (IsValid s.Objects s.AttachComponent = false →
        GetOrCreateAttachComponent s = Owner.RootComponent) := by
    intro Owner h
    constructor
    · intro hv
      have hs : s.AttachComponent.isSome = true := by
        cases ha : s.AttachComponent with
        | none => rw [ha] at hv; cases hv
        | some k => rfl
      simp [GetOrCreateAttachComponent, h, hv, hs]
    · intro hv
      simp [GetOrCreateAttachComponent, h, hv]
  refine ⟨hnone, hsome, ?_⟩
  constructor
  · intro hG
    cases hO : s.Owner with
    | none => exact Or.inl rfl
    | some Owner =>
      right
      refine ⟨Owner, rfl, ?_⟩
      cases hv : IsValid s.Objects s.AttachComponent with
      | false =>
        refine ⟨rfl, ?_⟩
        rw [← (hsome Owner hO).2 hv]
        exact hG
      | true =>
        have h1 := (hsome Owner hO).1 hv
        rw [hG] at h1
        rw [← h1] at hv
        cases hv
  · rintro (h | ⟨Owner, hO, hv, hr⟩)
    · exact hnone h
    · rw [(hsome Owner hO).2 hv, hr]

theorem attach_resolution_witness :
    GetOrCreateAttachComponent ownerless = none ∧
      GetOrCreateAttachComponent withAttach = some 2 ∧
      GetOrCreateAttachComponent scenario = some 0 :=
  ⟨(attach_resolution ownerless).1 rfl,
    ((attach_resolution withAttach).2.1 ⟨7, some 0⟩ rfl).1 rfl,
    ((attach_resolution scenario).2.1 ⟨7, some 0⟩ rfl).2 rfl⟩

/-- C10: for every content of the collection, `ClearSegments` destroys (once) every segment
of the collection that is still valid, leaves every already invalid segment as it is, leaves
every node outside the collection as it is, empties the collection and keeps the
configuration; on an empty collection it changes nothing. -/
theorem clear_segments_effect (s : State) :
    (ClearSegments s).SegmentComponents = [] ∧
    (∀ k n, some k ∈ s.SegmentComponents → s.Objects[k]? = some n → n.Valid = true →
      (ClearSegments s).Objects[k]? = some (destroyNode n)) ∧
    (∀ k n, some k ∈ s.SegmentComponents → s.Objects[k]? = some n → n.Valid = false →
      (ClearSegments s).Objects[k]? = some n) ∧
    (∀ k, some k ∉ s.SegmentComponents → (ClearSegments s).Objects[k]? = s.Objects[k]?) ∧
    (ClearSegments s).Objects.length = s.Objects.length ∧
    ClearSegments s =
      { s with SegmentComponents := [], Objects := (ClearSegments s).Objects } ∧
    (s.SegmentComponents = [] → ClearSegments s = s) := by
  refine ⟨rfl, ?_, ?_, ?_, length_clearLoop _ _, rfl, ?_⟩
  · intro k n hk hn hv
    show (s.SegmentComponents.foldl clearStep s.Objects)[k]? = _
    rw [getElem?_clearLoop, hn]
    simp [hk, hv]
  · intro k n hk hn hv
    show (s.SegmentComponents.foldl clearStep s.Objects)[k]? = _
    rw [getElem?_clearLoop, hn]
    simp [hv]
  · intro k hk
    show (s.SegmentComponents.foldl clearStep s.Objects)[k]? = _
    rw [getElem?_clearLoop]
    cases s.Objects[k]? with
    | none => rfl
    | some n => simp [hk]
  · intro h
    unfold ClearSegments
    rw [h]
    cases s
    simp_all

theorem clear_segments_effect_witness :
    (ClearSegments noAsset).SegmentComponents = [] ∧
      (ClearSegments noAsset).Objects[1]? =
        some (destroyNode (newStaticMeshComponent 7 "Segment_0")) ∧
      (ClearSegments noAsset).Objects[2]? =
        some (destroyNode (newStaticMeshComponent 7 "Segment_1")) ∧
      (ClearSegments noAsset).Objects[0]? = some (newStaticMeshComponent 7 "Root") :=
  ⟨(clear_segments_effect noAsset).1,
    (clear_segments_effect noAsset).2.1 1 _ (by simp [noAsset]) rfl rfl,
    (clear_segments_effect noAsset).2.2.1 2 _ (by simp [noAsset]) rfl rfl,
    (clear_segments_effect noAsset).2.2.2.1 0 (by simp [noAsset])⟩

/-- Segment `i` after a successful rebuild, whatever the anchor is: the node the loop made,
up to its location. -/
theorem segmentAt_of_success_fields (s : State) (Owner : AActor) (AttachTo : Nat)
    (Mesh : UStaticMesh) (hreg : s.Registered = true) (hown : s.Owner = some Owner)
    (hatt : GetOrCreateAttachComponent s = some AttachTo) (hmesh : s.SegmentMesh = some Mesh)
    (hlen : KINDA_SMALL_NUMBER < GetAxisExtent Mesh.BoxExtent s.HeightAxis * 2) (i : Nat) :
    (i < s.SegmentCount.toNat → ∃ n, segmentAt (RebuildMesh s) i = some n ∧
      n.StaticMesh = some Mesh ∧ n.AttachParent = some AttachTo) ∧
    (¬ i < s.SegmentCount.toNat → segmentAt (RebuildMesh s) i = none) := by
  unfold segmentAt
  rw [getElem?_collection_of_success s Owner AttachTo Mesh hreg hown hatt hmesh hlen]
  constructor
  · intro hi
    simp only [hi, if_true, deref]
    rw [getElem?_objects_of_success s Owner AttachTo Mesh hreg hown hatt hmesh hlen,
      getElem?_builtObjects_new s Owner AttachTo Mesh i hi]
    by_cases ha : s.AnchorComponent = some (s.Objects.length + i)
    · rw [if_pos ha]
      exact ⟨_, rfl, rfl, rfl⟩
    · rw [if_neg ha]
      exact ⟨_, rfl, rfl, rfl⟩
  · intro hi
    simp [hi]

/-- C9 as stated fails: with `AttachComponent` set to the owner's root node the segments are
parented to the root node; with the root node as anchor the rebuild moves the root node;
with the root node held in the collection the rebuild destroys it. -/
theorem rebuild_root_not_untouched :
    (attachIsRoot.Owner = some ⟨7, some 0⟩ ∧
        IsValid attachIsRoot.Objects attachIsRoot.AttachComponent = true ∧
        ∃ n, segmentAt (RebuildMesh attachIsRoot) 0 = some n ∧ n.AttachParent = some 0) ∧
      (anchorIsRoot.Owner = some ⟨7, some 0⟩ ∧
        IsValid anchorIsRoot.Objects anchorIsRoot.AttachComponent = true ∧
        locationOf anchorIsRoot.Objects 0 = some ⟨0, 0, 0⟩ ∧
        locationOf (RebuildMesh anchorIsRoot).Objects 0 = some ⟨0, 0, 12⟩) ∧
      (rootInCollection.Owner = some ⟨7, some 0⟩ ∧
        IsValid rootInCollection.Objects rootInCollection.AttachComponent = true ∧
        IsValid rootInCollection.Objects (some 0) = true ∧
        IsValid (RebuildMesh rootInCollection).Objects (some 0) = false) := by
  have hlen : KINDA_SMALL_NUMBER < GetAxisExtent (⟨1, ⟨1, 1, 2⟩⟩ : UStaticMesh).BoxExtent
      EAxis.Z * 2 := by
    norm_num [KINDA_SMALL_NUMBER, GetAxisExtent]
  refine ⟨⟨rfl, rfl, ?_⟩, ⟨rfl, rfl, rfl, ?_⟩, ⟨rfl, rfl, rfl, ?_⟩⟩
  · obtain ⟨n, h1, -, h2⟩ :=
      (segmentAt_of_success_fields attachIsRoot ⟨7, some 0⟩ 0 ⟨1, ⟨1, 1, 2⟩⟩ rfl rfl rfl rfl
        hlen 0).1 (by decide)
    exact ⟨n, h1, h2⟩
  · unfold locationOf
    rw [getElem?_objects_of_success anchorIsRoot ⟨7, some 0⟩ 2 ⟨1, ⟨1, 1, 2⟩⟩ rfl rfl rfl rfl
      hlen 0,
      getElem?_builtObjects_old anchorIsRoot ⟨7, some 0⟩ 2 ⟨1, ⟨1, 1, 2⟩⟩ 0 (by decide)]
    simp [anchorIsRoot, withAttach, scenario, clearedObjects, finalLocation,
      MakeLocationForAxis, GetAxisExtent]
    norm_num
  · rw [IsValid_some,
      valid_objects_of_success rootInCollection ⟨7, some 0⟩ 2 ⟨1, ⟨1, 1, 2⟩⟩ rfl rfl rfl rfl
        hlen 0,
      getElem?_builtObjects_old rootInCollection ⟨7, some 0⟩ 2 ⟨1, ⟨1, 1, 2⟩⟩ 0 (by decide)]
    rfl

/-- C9, amended: after a successful `RebuildMesh` every segment of the collection is bound
to `SegmentMesh` and parented to the one resolved attach node; that node is `AttachComponent`
when it is set and valid and the owner's root node when `AttachComponent` is unset. When
`AttachComponent` is set and valid and the owner's root node is a different node, is not the
anchor and is not held in the collection, the root node is left exactly as it was and no
segment is parented to it. -/
theorem rebuild_segment_parent (s : State) (Owner : AActor) (AttachTo : Nat)
    (Mesh : UStaticMesh) (hreg : s.Registered = true) (hown : s.Owner = some Owner)
    (hatt : GetOrCreateAttachComponent s = some AttachTo) (hmesh : s.SegmentMesh = some Mesh)
    (hlen : KINDA_SMALL_NUMBER < GetAxisExtent Mesh.BoxExtent s.HeightAxis * 2) :
    (∀ i : Nat, (i : ℤ) < s.SegmentCount → ∃ n, segmentAt (RebuildMesh s) i = some n ∧
      n.StaticMesh = s.SegmentMesh ∧ n.AttachParent = some AttachTo) ∧
    (IsValid s.Objects s.AttachComponent = true → s.AttachComponent = some AttachTo) ∧
    (s.AttachComponent = none → Owner.RootComponent = some AttachTo) ∧
    (∀ r n, Owner.RootComponent = some r → IsValid s.Objects s.AttachComponent = true →
      r ≠ AttachTo → s.AnchorComponent ≠ some r → some r ∉ s.SegmentComponents →
      s.Objects[r]? = some n →
      (RebuildMesh s).Objects[r]? = some n ∧
        ∀ i m, segmentAt (RebuildMesh s) i = some m → m.AttachParent ≠ some r) := by
  refine ⟨?_, ?_, ?_, ?_⟩
  · intro i hi
    have hi2 : i < s.SegmentCount.toNat := by omega
    rw [hmesh]
    exact (segmentAt_of_success_fields s Owner AttachTo Mesh hreg hown hatt hmesh hlen i).1 hi2
  · intro hv
    have hs : s.AttachComponent.isSome = true := by
      cases ha : s.AttachComponent with
      | none => rw [ha] at hv; cases hv
      | some k => rfl
    rw [← hatt]
    simp [GetOrCreateAttachComponent, hown, hv, hs]
  · intro ha
    rw [← hatt]
    simp [GetOrCreateAttachComponent, hown, ha]
  · intro r n _ _ hne hanch hmem hn
    have hr : r < s.Objects.length := by
      by_contra h
      have := List.getElem?_eq_none_iff.mpr (Nat.le_of_not_lt h)
      rw [hn] at this
      cases this
    constructor
    · rw [getElem?_objects_of_success s Owner AttachTo Mesh hreg hown hatt hmesh hlen,
        if_neg hanch, getElem?_builtObjects_old s Owner AttachTo Mesh r hr]
      unfold clearedObjects
      rw [getElem?_clearLoop, hn]
      simp [hmem]
    · intro i m hm hpar
      by_cases hi : i < s.SegmentCount.toNat
      · obtain ⟨n', h1, -, h2⟩ :=
          (segmentAt_of_success_fields s Owner AttachTo Mesh hreg hown hatt hmesh hlen i).1 hi
        rw [hm] at h1
        cases h1
        rw [hpar] at h2
        exact hne (Option.some.inj h2)
      · have := (segmentAt_of_success_fields s Owner AttachTo Mesh hreg hown hatt hmesh hlen
          i).2 hi
        rw [hm] at this
        cases this

theorem rebuild_segment_parent_witness :
    (segmentAt (RebuildMesh withAttach) 2).map USceneComponent.AttachParent =
        some (some 2) ∧
      (segmentAt (RebuildMesh withAttach) 2).map USceneComponent.StaticMesh =
        some withAttach.SegmentMesh ∧
      (RebuildMesh withAttach).Objects[0]? = some (newStaticMeshComponent 7 "Root") ∧
      (segmentAt (RebuildMesh scenario) 2).map USceneComponent.AttachParent =
        some (some 0) := by
  have hlen : KINDA_SMALL_NUMBER < GetAxisExtent (⟨1, ⟨1, 1, 2⟩⟩ : UStaticMesh).BoxExtent
      EAxis.Z * 2 := by
    norm_num [KINDA_SMALL_NUMBER, GetAxisExtent]
  have hT := rebuild_segment_parent withAttach ⟨7, some 0⟩ 2 ⟨1, ⟨1, 1, 2⟩⟩ rfl rfl rfl rfl hlen
  have hR := rebuild_segment_parent scenario ⟨7, some 0⟩ 0 ⟨1, ⟨1, 1, 2⟩⟩ rfl rfl rfl rfl hlen
  obtain ⟨n, h1, h2, h3⟩ := hT.1 2 (by decide)
  obtain ⟨m, h4, -, h5⟩ := hR.1 2 (by decide)
  refine ⟨by rw [h1]; simp [h3], by rw [h1]; simp [h2], ?_, by rw [h4]; simp [h5]⟩
  exact (hT.2.2.2 0 (newStaticMeshComponent 7 "Root") rfl rfl (by decide) (by decide)
    (by simp [withAttach, scenario]) rfl).1

/-- A rebuild never changes the `AnchorComponent` field. -/
theorem AnchorComponent_RebuildMesh (s : State) :
    (RebuildMesh s).AnchorComponent = s.AnchorComponent := by
  rcases rebuild_cases s with h | ⟨Owner, hreg, hown, hfail⟩ |
    ⟨Owner, AttachTo, Mesh, hreg, hown, hatt, hmesh, hlen⟩
  · have h1 : RebuildMesh s = s := by
      rcases h with h | h
      · simp [RebuildMesh, h]
      · unfold RebuildMesh
        split
        · rfl
        · simp [h]
    rw [h1]
  · rw [RebuildMesh_of_failure s Owner hreg hown hfail]
    rfl
  · rw [RebuildMesh_of_success s Owner AttachTo Mesh hreg hown hatt hmesh hlen]

/-- With an axis that is none of X, Y, Z the rebuild leaves the collection and the objects
that the rebuild with axis Z leaves. -/
theorem RebuildMesh_withAxis_None (s : State) :
    (RebuildMesh (withAxis s EAxis.None)).SegmentComponents =
        (RebuildMesh (withAxis s EAxis.Z)).SegmentComponents ∧
      (RebuildMesh (withAxis s EAxis.None)).Objects =
        (RebuildMesh (withAxis s EAxis.Z)).Objects := by
  rcases rebuild_cases (withAxis s EAxis.Z) with h | ⟨Owner, hreg, hown, hfail⟩ |
    ⟨Owner, AttachTo, Mesh, hreg, hown, hatt, hmesh, hlen⟩
  · have h1 : ∀ a, RebuildMesh (withAxis s a) = withAxis s a := by
      intro a
      have h' : (withAxis s a).Registered = false ∨ (withAxis s a).Owner = none := h
      rcases h' with h' | h'
      · simp [RebuildMesh, h']
      · unfold RebuildMesh
        split
        · rfl
        · simp [h']
    rw [h1, h1]
    exact ⟨rfl, rfl⟩
  · rw [RebuildMesh_of_failure (withAxis s EAxis.Z) Owner hreg hown hfail,
      RebuildMesh_of_failure (withAxis s EAxis.None) Owner hreg hown hfail]
    exact ⟨rfl, rfl⟩
  · rw [RebuildMesh_of_success (withAxis s EAxis.Z) Owner AttachTo Mesh hreg hown hatt hmesh
        hlen,
      RebuildMesh_of_success (withAxis s EAxis.None) Owner AttachTo Mesh hreg hown hatt hmesh
        hlen]
    exact ⟨rfl, rfl⟩

/-- C14: for every axis value other than X, Y and Z, every half-extent vector and every
scalar, `GetAxisExtent`, `GetAxisOffset` and `MakeLocationForAxis` return what they return
for Z: the Z component, the negated Z component and the vector `(0, 0, Value)`; hence a
rebuild with such a `HeightAxis` leaves the same collection and the same objects, so the
same segment offsets and anchor position, as the rebuild with `HeightAxis = Z`. -/
theorem unrecognized_axis_is_Z (a : EAxis) (hx : a ≠ EAxis.X) (hy : a ≠ EAxis.Y)
    (hz : a ≠ EAxis.Z) :
    (∀ v : FVector, GetAxisExtent v a = v.Z ∧ GetAxisExtent v a = GetAxisExtent v EAxis.Z) ∧
    (∀ v : FVector, GetAxisOffset v a = -v.Z ∧ GetAxisOffset v a = GetAxisOffset v EAxis.Z) ∧
    (∀ x : ℚ, MakeLocationForAxis a x = ⟨0, 0, x⟩ ∧
      MakeLocationForAxis a x = MakeLocationForAxis EAxis.Z x) ∧
    (∀ s : State,
      (RebuildMesh (withAxis s a)).SegmentComponents =
          (RebuildMesh (withAxis s EAxis.Z)).SegmentComponents ∧
        (RebuildMesh (withAxis s a)).Objects = (RebuildMesh (withAxis s EAxis.Z)).Objects ∧
        (∀ i, segmentLocation (RebuildMesh (withAxis s a)) i =
          segmentLocation (RebuildMesh (withAxis s EAxis.Z)) i) ∧
        anchorLocation (RebuildMesh (withAxis s a)) =
          anchorLocation (RebuildMesh (withAxis s EAxis.Z))) := by
  cases a with
  | X => exact absurd rfl hx
  | Y => exact absurd rfl hy
  | Z => exact absurd rfl hz
  | None =>
    refine ⟨fun v => ⟨rfl, rfl⟩, fun v => ⟨rfl, rfl⟩, fun x => ⟨rfl, rfl⟩, ?_⟩
    intro s
    obtain ⟨hc, ho⟩ := RebuildMesh_withAxis_None s
    refine ⟨hc, ho, ?_, ?_⟩
    · intro i
      unfold segmentLocation segmentAt
      rw [hc, ho]
    · unfold anchorLocation
      rw [ho, AnchorComponent_RebuildMesh, AnchorComponent_RebuildMesh]
      rfl

theorem unrecognized_axis_is_Z_witness :
    GetAxisExtent ⟨1, 1, 2⟩ EAxis.None = 2 ∧
      GetAxisOffset ⟨1, 1, 2⟩ EAxis.None = -2 ∧
      MakeLocationForAxis EAxis.None 12 = ⟨0, 0, 12⟩ ∧
      segmentLocation (RebuildMesh (withAxis scenario EAxis.None)) 1 =
        segmentLocation (RebuildMesh (withAxis scenario EAxis.Z)) 1 ∧
      anchorLocation (RebuildMesh (withAxis scenario EAxis.None)) =
        anchorLocation (RebuildMesh (withAxis scenario EAxis.Z)) :=
  have h := unrecognized_axis_is_Z EAxis.None (by decide) (by decide) (by decide)
  ⟨(h.1 ⟨1, 1, 2⟩).1, (h.2.1 ⟨1, 1, 2⟩).1, (h.2.2.1 12).1, (h.2.2.2 scenario).2.2.1 1,
    (h.2.2.2 scenario).2.2.2⟩

/-- C15: a `RebuildMesh` call that returns early (component not registered, no owner, attach
target unresolved, asset unset, or segment length at most the tolerance) leaves the local
position of the anchor, and of every other node, as it was, also when `AnchorComponent` is
set; only the path through the segment loop repositions the anchor. -/
theorem early_return_keeps_anchor (s : State)
    (h : s.Registered = false ∨ s.Owner = none ∨ GetOrCreateAttachComponent s = none ∨
      s.SegmentMesh = none ∨
      ∃ Mesh, s.SegmentMesh = some Mesh ∧
        GetAxisExtent Mesh.BoxExtent s.HeightAxis * 2 ≤ KINDA_SMALL_NUMBER) :
    anchorLocation (RebuildMesh s) = anchorLocation s ∧
      ∀ k, locationOf (RebuildMesh s).Objects k = locationOf s.Objects k := by
  rcases rebuild_cases s with h0 | ⟨Owner, hreg, hown, hfail⟩ |
    ⟨Owner, AttachTo, Mesh, hreg, hown, hatt, hmesh, hlen⟩
  · have h1 : RebuildMesh s = s := by
      rcases h0 with h0 | h0
      · simp [RebuildMesh, h0]
      · unfold RebuildMesh
        split
        · rfl
        · simp [h0]
    rw [h1]
    exact ⟨rfl, fun _ => rfl⟩
  · rw [RebuildMesh_of_failure s Owner hreg hown hfail]
    have hk : ∀ k, locationOf (ClearSegments s).Objects k = locationOf s.Objects k :=
      fun k => locationOf_clearedObjects s k
    refine ⟨?_, hk⟩
    unfold anchorLocation
    show Option.map _ (deref (ClearSegments s).Objects s.AnchorComponent) = _
    cases s.AnchorComponent with
    | none => rfl
    | some a => exact hk a
  · exfalso
    rcases h with h | h | h | h | ⟨Mesh', hm, hd⟩
    · rw [hreg] at h; cases h
    · rw [hown] at h; cases h
    · rw [hatt] at h; cases h
    · rw [hmesh] at h; cases h
    · rw [hmesh] at hm
      cases hm
      exact absurd hd (not_le.mpr hlen)

theorem early_return_keeps_anchor_witness :
    flatAsset.AnchorComponent = some 1 ∧
      anchorLocation (RebuildMesh flatAsset) = some ⟨0, 0, 0⟩ :=
  ⟨rfl, (early_return_keeps_anchor flatAsset (Or.inr (Or.inr (Or.inr (Or.inr
    ⟨⟨1, ⟨1, 1, 0⟩⟩, rfl, by norm_num [GetAxisExtent, flatAsset, scenario,
      KINDA_SMALL_NUMBER]⟩))))).1.trans rfl⟩

end Zoo
